import Mathlib

/-!
# Verification of the multitrack playback engine (main.py), effects.py and splitter.py

Shallow embedding of the control-plane state machine of `TrackWidget` /
`AudioPlayerApp` from `main.py`, of `create_pedalboard` from `effects.py`,
of the path construction of `spleeter_split` / `demucs_split` from
`splitter.py`, and of the exporter's peak normalization (modelled from the
spec, no export code is present in the sources).

Time is modelled as an explicit rational parameter `now` (seconds, the
value `time.time()` would return).  Slider values are integers, as in Qt.
Playback positions (`offset`, `file_duration`) are rationals in seconds,
exactly as the Python floats are used.  UI-only effects (button captions,
style sheets, the reverb parameter panel) are not modelled: no claim
touches them.
-/

/-- Python `int(q)` for a rational: truncation toward zero. -/
def pyInt (q : ℚ) : Int :=
  if q < 0 then -⌊-q⌋ else ⌊q⌋

/-- Qt `QSlider.setValue` clamps the requested value into
`[minimum, maximum]`; every slider in `main.py` has minimum 0. -/
def clampSlider (maxV v : Int) : Int :=
  min maxV (max 0 v)

/-- One pyo `SfPlayer` as far as the control plane observes it:
the `offset` and `mul` it was constructed with, and whether its output
stream is currently flowing (`.out()` sets it, `.stop()` clears it).
In `main.py` every constructed player is sent to the output immediately
(`self.effect.out()` / `processed.out()`), so construction is modelled
with `active := true`. -/
structure Player where
  sfOffset : ℚ
  mul : ℚ
  active : Bool
deriving Repr, DecidableEq

/-- The mutable state of one `TrackWidget` (main.py lines 19-236),
restricted to the fields the transport logic reads and writes:
`file_path`, `file_duration`, `player`, `playing`, `offset`,
`start_time`, `seeking`, the position slider's value and maximum, the
volume slider's value, and whether the 50 ms position timer is running. -/
structure Track where
  filePath : Option String
  fileDuration : ℚ
  player : Option Player
  playing : Bool
  offset : ℚ
  startTime : ℚ
  seeking : Bool
  timerOn : Bool
  volumeSlider : Int
  posSlider : Int
  posSliderMax : Int
deriving Repr, DecidableEq

namespace Track

/-- A track has an active output stream iff it holds a player whose
stream has not been stopped. -/
def streamActive (t : Track) : Bool :=
  match t.player with
  | some p => p.active
  | none => false

/-- `TrackWidget.start_from_offset` (main.py lines 138-150): build a new
`SfPlayer` at `offset_val` with the slider volume, send it to the output,
record the start time, set `playing`, start the timer.  (The effect wrap
`get_processed_output` does not change any of these fields.) -/
def startFromOffset (t : Track) (offsetVal now : ℚ) : Track :=
  let volume : ℚ := (t.volumeSlider : ℚ) / 100
  { t with
      player := some { sfOffset := offsetVal, mul := volume, active := true }
      startTime := now
      playing := true
      timerOn := true }

/-- `TrackWidget.pause_playback` (main.py lines 152-158): stop the player
if present, add the elapsed wall time to `offset`, clear `playing`, stop
the timer. -/
def pausePlayback (t : Track) (now : ℚ) : Track :=
  let t1 :=
    match t.player with
    | some p => { t with player := some { p with active := false } }
    | none => t
  { t1 with
      offset := t1.offset + (now - t1.startTime)
      playing := false
      timerOn := false }

/-- `TrackWidget.update_position` (main.py lines 160-173): one timer tick.
If playing and not mid-drag, compute the current position; at or past the
end of the file, pin the slider to the end, stop the player, clear
`playing`, stop the timer and reset `offset` to 0; otherwise just move
the slider. -/
def updatePosition (t : Track) (now : ℚ) : Track :=
  if t.playing && !t.seeking then
    let currentPos : ℚ := t.offset + (now - t.startTime)
    if t.fileDuration ≤ currentPos then
      let t1 := { t with
        posSlider := clampSlider t.posSliderMax (pyInt (t.fileDuration * 1000)) }
      let t2 :=
        match t1.player with
        | some p => { t1 with player := some { p with active := false } }
        | none => t1
      { t2 with playing := false, timerOn := false, offset := 0 }
    else
      { t with posSlider := clampSlider t.posSliderMax (pyInt (currentPos * 1000)) }
  else t

/-- `TrackWidget.process_seek` (main.py lines 182-198), the track-local
part (the sync fan-out that follows it lives in `App.trackSeekReleased`).
No loaded file: return unchanged.  Otherwise adopt the slider value (ms)
as the new `offset` (seconds); if playing, stop the old player and start
a fresh one at the new offset. -/
def processSeek (t : Track) (now : ℚ) : Track :=
  match t.filePath with
  | none => t
  | some _ =>
    let newPos : ℚ := (t.posSlider : ℚ) / 1000
    let t1 := { t with offset := newPos }
    if t1.playing then
      let t2 :=
        match t1.player with
        | some p => { t1 with player := some { p with active := false } }
        | none => t1
      let volume : ℚ := (t2.volumeSlider : ℚ) / 100
      { t2 with
          player := some { sfOffset := t2.offset, mul := volume, active := true }
          startTime := now }
    else t1

/-- A user seek gesture: the drag moves the slider (Qt clamps the value
into `[0, maximum]`), the release clears `seeking` and runs
`process_seek` (main.py lines 175-198). -/
def seek (t : Track) (f : Int) (now : ℚ) : Track :=
  let t1 := { t with posSlider := clampSlider t.posSliderMax f, seeking := false }
  t1.processSeek now

end Track

/-- The state of `AudioPlayerApp` (main.py lines 390-482) the transport
logic touches: the track list and the "Sync Tracks" checkbox. -/
structure App where
  tracks : List Track
  syncEnabled : Bool
deriving Repr, DecidableEq

namespace App

/-- `AudioPlayerApp.sync_play` (main.py lines 443-454).  `start = true`:
every track with a file gets `offset := 0` and is started from 0.
`start = false`: every playing track is paused. -/
def syncPlay (app : App) (start : Bool) (now : ℚ) : App :=
  if start then
    { app with
        tracks := app.tracks.map fun t =>
          match t.filePath with
          | some _ => Track.startFromOffset { t with offset := 0 } 0 now
          | none => t }
  else
    { app with
        tracks := app.tracks.map fun t =>
          if t.playing then t.pausePlayback now else t }

/-- `AudioPlayerApp.global_play_pause` (main.py lines 437-441): a group
toggle driven by the aggregate `any playing` state. -/
def globalPlayPause (app : App) (now : ℚ) : App :=
  if app.tracks.any (fun t => t.playing) then
    app.syncPlay false now
  else
    app.syncPlay true now

/-- The body of the `sync_seek` loop for one non-origin track
(main.py lines 460-474): skip tracks with no file; stop a playing
track's player; adopt `new_pos`; if the origin is playing, start a fresh
player there and mark the track playing.  `origin.playing` is constant
over the loop (the origin itself is skipped), so it is a parameter. -/
def syncSeekTrack (originPlaying : Bool) (newPos now : ℚ) (t : Track) : Track :=
  match t.filePath with
  | none => t
  | some _ =>
    let t1 :=
      if t.playing then
        match t.player with
        | some p => { t with player := some { p with active := false } }
        | none => t
      else t
    let t2 := { t1 with offset := newPos }
    if originPlaying then
      let volume : ℚ := (t2.volumeSlider : ℚ) / 100
      { t2 with
          player := some { sfOffset := newPos, mul := volume, active := true }
          startTime := now
          playing := true }
    else t2

/-- The `sync_seek` loop over an indexed track list. -/
def syncSeekLoop (originPlaying : Bool) (newPos now : ℚ) (origin : Nat) :
    Nat → List Track → List Track
  | _, [] => []
  | i, t :: ts =>
    (if i = origin then t else syncSeekTrack originPlaying newPos now t)
      :: syncSeekLoop originPlaying newPos now origin (i + 1) ts

/-- `AudioPlayerApp.sync_seek` (main.py lines 456-478).  `origin` is
identified by its index in `self.tracks` (the source compares object
identity, `track is origin`). -/
def syncSeek (app : App) (newPos : ℚ) (origin : Nat) (now : ℚ) : App :=
  let originPlaying :=
    match app.tracks.get? origin with
    | some t => t.playing
    | none => false
  { app with tracks := syncSeekLoop originPlaying newPos now origin 0 app.tracks }

/-- `TrackWidget.toggle_playback` (main.py lines 126-136) for track `i`:
no file loaded is a silent no-op; with sync enabled the press becomes a
group start; otherwise toggle this one track. -/
def togglePlayback (app : App) (i : Nat) (now : ℚ) : App :=
  match app.tracks.get? i with
  | none => app
  | some t =>
    match t.filePath with
    | none => app
    | some _ =>
      if app.syncEnabled then
        app.syncPlay true now
      else if !t.playing then
        { app with tracks := app.tracks.set i (t.startFromOffset t.offset now) }
      else
        { app with tracks := app.tracks.set i (t.pausePlayback now) }

/-- A slider release on track `i`: the track-local `process_seek`
followed, when sync is enabled, by the `sync_seek` fan-out with the new
position in seconds (main.py lines 199-200). -/
def trackSeekReleased (app : App) (i : Nat) (now : ℚ) : App :=
  match app.tracks.get? i with
  | none => app
  | some t =>
    match t.filePath with
    | none => app
    | some _ =>
      let app1 := { app with tracks := app.tracks.set i (t.processSeek now) }
      if app.syncEnabled then
        app1.syncSeek ((t.posSlider : ℚ) / 1000) i now
      else app1

end App

/-! ## effects.py -/

/-- The pedalboard plugin classes named in `effects.py`. -/
inductive EffectClass
  | Reverb
  | Delay
  | Chorus
  | Phaser
deriving Repr, DecidableEq

/-- One entry of an effect's `"params"` list in `effects.py`:
name, min, max, default (every parameter there has `"type": "float"`). -/
structure ParamConfig where
  name : String
  minVal : ℚ
  maxVal : ℚ
  default : ℚ
deriving Repr, DecidableEq

/-- One value of the `EFFECTS` dict: the `"class"` entry (None for the
`"None"` effect) and the `"params"` list. -/
structure EffectConfig where
  cls : Option EffectClass
  params : List ParamConfig
deriving Repr, DecidableEq

/-- The `EFFECTS` table of `effects.py` (lines 4-38), as an association
list in declaration order. -/
def EFFECTS : List (String × EffectConfig) :=
  [ ("None", { cls := none, params := [] })
  , ("Reverb",
     { cls := some .Reverb
       params :=
        [ { name := "room_size", minVal := 0, maxVal := 1, default := 1/2 }
        , { name := "damping", minVal := 0, maxVal := 1, default := 1/2 }
        , { name := "wet_level", minVal := 0, maxVal := 1, default := 33/100 }
        , { name := "dry_level", minVal := 0, maxVal := 1, default := 2/5 }
        , { name := "width", minVal := 0, maxVal := 1, default := 1 } ] })
  , ("Delay",
     { cls := some .Delay
       params :=
        [ { name := "delay_seconds", minVal := 1/1000, maxVal := 2, default := 1/2 }
        , { name := "feedback", minVal := 0, maxVal := 95/100, default := 3/10 }
        , { name := "mix", minVal := 0, maxVal := 1, default := 1/2 } ] })
  , ("Chorus",
     { cls := some .Chorus
       params :=
        [ { name := "rate_hz", minVal := 1/10, maxVal := 5, default := 3/2 }
        , { name := "depth", minVal := 0, maxVal := 1, default := 1/2 } ] })
  , ("Phaser",
     { cls := some .Phaser
       params :=
        [ { name := "rate_hz", minVal := 1/10, maxVal := 5, default := 1/2 }
        , { name := "depth", minVal := 0, maxVal := 1, default := 1/2 } ] })
  ]

/-- Python `EFFECTS.get(effect_name)`. -/
def lookupEffect (name : String) : Option EffectConfig :=
  (EFFECTS.find? (fun e => e.1 = name)).map (fun e => e.2)

/-- One plugin instance placed on a returned `Pedalboard`: its class and
the keyword arguments it was constructed with. -/
structure BoardPlugin where
  cls : EffectClass
  params : List (String × ℚ)
deriving Repr, DecidableEq

/-- `create_pedalboard(effect_name, **kwargs)` (effects.py lines 55-71).
The returned `Pedalboard` is modelled by its list of plugins: empty for
an unknown name or the `"None"` effect, otherwise one plugin built with
each declared parameter taken from `kwargs` when present, the declared
default when absent.  (`kwargs.get` performs no range check.) -/
def create_pedalboard (effectName : String) (kwargs : List (String × ℚ)) :
    List BoardPlugin :=
  match lookupEffect effectName with
  | none => []
  | some eff =>
    match eff.cls with
    | none => []
    | some cls =>
      let params := eff.params.map fun cfg =>
        (cfg.name,
         match kwargs.find? (fun kv => kv.1 = cfg.name) with
         | some kv => kv.2
         | none => cfg.default)
      [{ cls := cls, params := params }]

/-! ## splitter.py -/

/-- `os.path.join` for the paths built in `splitter.py` (POSIX flavour;
the separator choice is irrelevant to the claims). -/
def pathJoin (a b : String) : String := a ++ "/" ++ b

/-- `expected_tracks` of `spleeter_split` (splitter.py line 77). -/
def spleeterExpectedTracks : List String :=
  ["vocals.wav", "drums.wav", "bass.wav", "other.wav"]

/-- The result construction of `spleeter_split` (splitter.py lines
74-95): after the separator ran, the expected per-stem paths inside
`output_dir/base_name` are assembled and returned unconditionally.  The
filesystem is abstracted as `existing`, the list of file paths that
exist: a missing path only triggers a printed warning, it is still
appended to the returned tuple. -/
def spleeter_split (outputDir baseName : String) (existing : List String) :
    List String :=
  let trackFolder := pathJoin outputDir baseName
  let trackPaths := spleeterExpectedTracks.map fun track =>
    pathJoin trackFolder track
  trackPaths

/-- `stem_files` of `demucs_split` (splitter.py line 118). -/
def demucsStemFiles : List String :=
  ["bass.wav", "drums.wav", "other.wav", "vocals.wav"]

/-- The result construction of `demucs_split` (splitter.py lines
107-120): a nonzero exit status of the `demucs` subprocess raises
`RuntimeError` with the captured stderr; otherwise the four stem paths
inside `output_dir/base_name` are returned in `stem_files` order, with
no existence check. -/
def demucs_split (outputDir baseName : String) (returncode : Int)
    (stderrText : String) : Except String (List String) :=
  if returncode ≠ 0 then
    .error ("Demucs failed:\n" ++ stderrText)
  else
    let songOutputFolder := pathJoin outputDir baseName
    .ok (demucsStemFiles.map fun stem => pathJoin songOutputFolder stem)

/-! ## Exporter (spec §4.4) -/

/-- Modelled from the spec: the peak absolute amplitude of the mixed
buffer (spec §4.4 step 3).  No export code exists under `src/`; the
Exporter is specified in §4.4 only.  The buffer is modelled as a flat
list of rational sample values. -/
def peakAmplitude (mixed : List ℚ) : ℚ :=
  mixed.foldr (fun x acc => max |x| acc) 0

/-- Modelled from the spec: exporter peak normalization (spec §4.4
step 3) — "compute peak absolute amplitude across `mixed`; if peak >
1.0, divide the entire buffer by peak". -/
def normalizeMix (mixed : List ℚ) : List ℚ :=
  if 1 < peakAmplitude mixed then mixed.map (fun x => x / peakAmplitude mixed)
  else mixed

/-! ## Concrete states used by counterexamples and witnesses -/

/-- A track playing a 2-second file from its start (slider maximum
`int(2.0 * 1000) = 2000` as `set_file` computes it). -/
def autoStopTrack : Track :=
  { filePath := some "a.wav", fileDuration := 2
    player := some { sfOffset := 0, mul := 1, active := true }
    playing := true, offset := 0, startTime := 0, seeking := false
    timerOn := true, volumeSlider := 100, posSlider := 0, posSliderMax := 2000 }

/-- A stopped track holding a 2-second file, used for seek round-trips. -/
def seekDemoTrack : Track :=
  { filePath := some "b.wav", fileDuration := 2, player := none
    playing := false, offset := 0, startTime := 0, seeking := false
    timerOn := false, volumeSlider := 100, posSlider := 0, posSliderMax := 2000 }

/-- A track with no file loaded. -/
def emptyTrack : Track :=
  { filePath := none, fileDuration := 0, player := none
    playing := false, offset := 0, startTime := 0, seeking := false
    timerOn := false, volumeSlider := 100, posSlider := 0, posSliderMax := 1000 }

/-- A loaded, stopped track parked at 1.5 s. -/
def parkedTrack : Track :=
  { filePath := some "loaded.wav", fileDuration := 2, player := none
    playing := false, offset := 3/2, startTime := 0, seeking := false
    timerOn := false, volumeSlider := 100, posSlider := 1500, posSliderMax := 2000 }

/-- A loaded track mid-playback with an active stream. -/
def runningTrack : Track :=
  { filePath := some "running.wav", fileDuration := 3
    player := some { sfOffset := 0, mul := 1, active := true }
    playing := true, offset := 0, startTime := 0, seeking := false
    timerOn := true, volumeSlider := 100, posSlider := 0, posSliderMax := 3000 }

/-- App with a stopped loaded origin (index 0) and a playing second
track (index 1); sync enabled. -/
def stalePlayingApp : App :=
  { tracks := [seekDemoTrack, runningTrack], syncEnabled := true }

/-- App whose origin (index 0) is playing and whose second track is
loaded but stopped; sync enabled. -/
def originPlayingApp : App :=
  { tracks := [runningTrack, parkedTrack], syncEnabled := true }

/-- App with an unloaded first track and a loaded stopped second track;
sync enabled. -/
def syncNoFileApp : App :=
  { tracks := [emptyTrack, parkedTrack], syncEnabled := true }

/-- App (sync off) with one playing and one parked track. -/
def mixedStateApp : App :=
  { tracks := [runningTrack, parkedTrack], syncEnabled := false }

/-! ## Supporting lemmas -/

theorem syncSeekLoop_get? (originPlaying : Bool) (newPos now : ℚ) (origin : Nat) :
    ∀ (k i : Nat) (l : List Track),
      (App.syncSeekLoop originPlaying newPos now origin k l).get? i =
        (l.get? i).map fun t =>
          if k + i = origin then t
          else App.syncSeekTrack originPlaying newPos now t := by
  intro k i l
  induction l generalizing k i with
  | nil => simp [App.syncSeekLoop]
  | cons t ts ih =>
    cases i with
    | zero => simp [App.syncSeekLoop]
    | succ n =>
      simp only [App.syncSeekLoop, List.get?_cons_succ, ih (k + 1) n]
      have : k + 1 + n = k + (n + 1) := by omega
      rw [this]

theorem syncSeek_tracks_get? (app : App) (newPos : ℚ) (origin : Nat) (now : ℚ)
    (originTrack : Track) (ho : app.tracks.get? origin = some originTrack)
    (i : Nat) :
    (app.syncSeek newPos origin now).tracks.get? i =
      (app.tracks.get? i).map fun t =>
        if i = origin then t
        else App.syncSeekTrack originTrack.playing newPos now t := by
  unfold App.syncSeek
  simp only [ho, syncSeekLoop_get?, Nat.zero_add]

theorem peakAmplitude_nonneg (l : List ℚ) : 0 ≤ peakAmplitude l := by
  induction l with
  | nil => simp [peakAmplitude]
  | cons x xs ih =>
    simp only [peakAmplitude, List.foldr_cons] at ih ⊢
    exact le_max_of_le_right ih

theorem peakAmplitude_map_div (l : List ℚ) (c : ℚ) (hc : 0 < c) :
    peakAmplitude (l.map fun x => x / c) = peakAmplitude l / c := by
  induction l with
  | nil => simp [peakAmplitude]
  | cons x xs ih =>
    simp only [peakAmplitude, List.map_cons, List.foldr_cons] at ih ⊢
    rw [ih, abs_div, abs_of_pos hc, max_div_div_right hc.le]

/-! ## Claims -/

/-- C3 counterexample: a track playing a 2-second file from the start,
ticked at `now = 2` (end of file).  The transport does auto-stop in that
same tick, but the track's resume position `offset` is reset to 0 by
`update_position` (main.py line 171), not retained at the total length
(2 seconds); only the display slider is pinned to the end. -/
theorem auto_stop_offset_reset_counterexample :
    (autoStopTrack.updatePosition 2).playing = false ∧
    (autoStopTrack.updatePosition 2).offset = 0 ∧
    autoStopTrack.fileDuration = 2 ∧ (0 : ℚ) ≠ 2 := by
  norm_num [Track.updatePosition, autoStopTrack, clampSlider, pyInt]

/-- C3 (amended): when a tick reaches or passes the end of the file, the
transport auto-stops as part of that same tick (playing flag cleared,
stream stopped, timer stopped); the displayed slider position is pinned
to the total length, but the resume position `offset` is reset to 0, so
a subsequent play starts from the beginning. -/
theorem auto_stop_end_behavior (t : Track) (now : ℚ)
    (hp : t.playing = true) (hs : t.seeking = false)
    (hend : t.fileDuration ≤ t.offset + (now - t.startTime)) :
    (t.updatePosition now).playing = false ∧
    (t.updatePosition now).streamActive = false ∧
    (t.updatePosition now).timerOn = false ∧
    (t.updatePosition now).offset = 0 ∧
    (t.updatePosition now).posSlider =
      clampSlider t.posSliderMax (pyInt (t.fileDuration * 1000)) := by
  unfold Track.updatePosition
  rw [hp, hs]
  simp only [Bool.not_false, Bool.and_true, if_true, if_pos hend]
  cases hpl : t.player <;> simp [Track.streamActive, hpl]

/-- Witness for C3's amended theorem at the concrete end-of-file tick. -/
theorem auto_stop_end_behavior_witness :
    (autoStopTrack.updatePosition 2).playing = false ∧
    (autoStopTrack.updatePosition 2).streamActive = false ∧
    (autoStopTrack.updatePosition 2).offset = 0 := by
  have h := auto_stop_end_behavior autoStopTrack 2 (by norm_num [autoStopTrack])
    (by norm_num [autoStopTrack]) (by norm_num [autoStopTrack])
  exact ⟨h.1, h.2.1, h.2.2.2.1⟩

/-- C4 counterexample: at millisecond granularity a 2-second file has
2000 frames with valid read indices 0..1999, yet seeking to the slider
maximum 2000 yields position 2000 (the full duration): the code clamps
the target into `[0, int(duration*1000)]`, one past the claimed
`[0, frame_count-1]`. -/
theorem seek_clamp_upper_bound_counterexample :
    (seekDemoTrack.seek 2000 0).offset = 2 ∧
    (seekDemoTrack.seek 2000 0).posSlider = 2000 ∧
    seekDemoTrack.posSliderMax = 2000 ∧
    ¬((seekDemoTrack.seek 2000 0).posSlider ≤ seekDemoTrack.posSliderMax - 1) := by
  norm_num [Track.seek, Track.processSeek, seekDemoTrack, clampSlider]

/-- C4 (amended): for every loaded track and every seek target `f`
(milliseconds), `seek(f)` followed immediately by reading the position
yields `f` clamped to `[0, int(duration*1000)]` — the inclusive full
duration, not `frame_count - 1` — regardless of whether the track is
playing or stopped: `offset` becomes the clamped value in seconds, the
slider holds the clamped value, and the playing state is unchanged. -/
theorem seek_roundtrip_clamped (t : Track) (f : Int) (now : ℚ)
    (hf : t.filePath.isSome) :
    (t.seek f now).offset = (clampSlider t.posSliderMax f : ℚ) / 1000 ∧
    (t.seek f now).posSlider = clampSlider t.posSliderMax f ∧
    (t.seek f now).playing = t.playing := by
  obtain ⟨fp, hfp⟩ := Option.isSome_iff_exists.mp hf
  unfold Track.seek Track.processSeek
  simp only [hfp]
  cases hp : t.playing
  · simp
  · cases t.player <;> simp

/-- Witness for C4's amended theorem: seeking the stopped demo track to
500 ms parks it at 0.5 s. -/
theorem seek_roundtrip_clamped_witness :
    (seekDemoTrack.seek 500 0).offset = (1 : ℚ) / 2 ∧
    (seekDemoTrack.seek 500 0).playing = false := by
  have h := seek_roundtrip_clamped seekDemoTrack 500 0 (by norm_num [seekDemoTrack])
  refine ⟨?_, ?_⟩
  · rw [h.1]; norm_num [seekDemoTrack, clampSlider]
  · rw [h.2.2]; rfl

/-- C5 failing input: `sync_seek(0.5, origin=track0)` on an app whose
origin (index 0) is stopped while track 1 is playing.  The loop stops
track 1's player (main.py line 462) but, because the origin is not
playing, never clears `track1.playing`: the operation completes leaving
track 1 flagged as playing with its output stream stopped, violating
the flag/stream invariant durably (until some later operation). -/
theorem sync_seek_stale_playing_flag :
    ((stalePlayingApp.syncSeek (1/2) 0 10).tracks.get? 1).map
        (fun t => (t.playing, t.streamActive, t.offset)) =
      some (true, false, 1/2) := rfl

/-- C1: `sync_seek(origin, target)` — every other loaded track adopts the
target position; with the origin playing, each such track transitions to
playing at the target (fresh active player at `newPos`); with the origin
stopped, positions update without starting playback (no stream becomes
active that was not, and the playing flag is not newly set); tracks with
no file are skipped untouched and the fan-out is total (never errors).
`hwf` records the code's implicit invariant that a playing track holds a
player (`track.player.stop()` on main.py line 462 presumes it). -/
theorem sync_seek_group_spec (app : App) (newPos now : ℚ) (o i : Nat)
    (originTrack t : Track)
    (hwf : ∀ u ∈ app.tracks, u.playing = true → u.player.isSome)
    (ho : app.tracks.get? o = some originTrack)
    (hi : app.tracks.get? i = some t) (hne : i ≠ o) :
    ∃ t', (app.syncSeek newPos o now).tracks.get? i = some t' ∧
      (t.filePath = none → t' = t) ∧
      (t.filePath.isSome →
        t'.offset = newPos ∧
        (originTrack.playing = true →
          t'.playing = true ∧ t'.streamActive = true ∧
          t'.player.map Player.sfOffset = some newPos) ∧
        (originTrack.playing = false →
          t'.playing = t.playing ∧
          (t'.streamActive = true → t.streamActive = true))) := by
  refine ⟨App.syncSeekTrack originTrack.playing newPos now t, ?_, ?_, ?_⟩
  · rw [syncSeek_tracks_get? app newPos o now originTrack ho i, hi]
    simp [hne]
  · intro hfp
    unfold App.syncSeekTrack
    rw [hfp]
  · intro hfp
    obtain ⟨fp, hfp'⟩ := Option.isSome_iff_exists.mp hfp
    simp only [App.syncSeekTrack, hfp']
    cases hop : originTrack.playing <;> cases hp : t.playing <;>
      cases hpl : t.player <;>
        simp_all [Track.streamActive]

/-- Witness for C1 with the origin (index 0) playing: track 1 adopts
offset 1 and starts playing with an active stream. -/
theorem sync_seek_group_spec_witness :
    ∃ t', (originPlayingApp.syncSeek 1 0 7).tracks.get? 1 = some t' ∧
      t'.offset = 1 ∧ t'.playing = true ∧ t'.streamActive = true := by
  obtain ⟨t', hget, -, hprops⟩ :=
    sync_seek_group_spec originPlayingApp 1 7 0 1 runningTrack parkedTrack
      (by intro u hu hp
          simp only [originPlayingApp, List.mem_cons, List.mem_singleton] at hu
          rcases hu with h | h | h
          · subst h; rfl
          · subst h; exact absurd hp (by norm_num [parkedTrack])
          · exact absurd h (List.not_mem_nil u))
      rfl rfl (by norm_num)
  have h2 := hprops (by norm_num [parkedTrack])
  have h3 := h2.2.1 (by norm_num [runningTrack])
  exact ⟨t', hget, h2.1, h3.1, h3.2.1⟩

/-- C2: `global_play_pause` is a group toggle on the aggregate state.
With no track playing, every loaded track is started from position 0
(offset 0, fresh player at 0, active stream) and unloaded tracks are
untouched; with at least one track playing, every playing track is
paused (flag cleared, stream stopped) with its position retained as the
wall-clock position reached, and already-stopped tracks are untouched. -/
theorem global_play_pause_group_toggle (app : App) (now : ℚ) (i : Nat) (t : Track)
    (hi : app.tracks.get? i = some t) :
    (app.tracks.any (fun u => u.playing) = false →
      ∃ t', (app.globalPlayPause now).tracks.get? i = some t' ∧
        (t.filePath.isSome →
          t'.offset = 0 ∧ t'.playing = true ∧ t'.streamActive = true ∧
          t'.player.map Player.sfOffset = some 0) ∧
        (t.filePath = none → t' = t)) ∧
    (app.tracks.any (fun u => u.playing) = true →
      ∃ t', (app.globalPlayPause now).tracks.get? i = some t' ∧
        (t.playing = true →
          t'.playing = false ∧ t'.streamActive = false ∧
          t'.offset = t.offset + (now - t.startTime)) ∧
        (t.playing = false → t' = t)) := by
  constructor
  · intro hany
    have hgp : app.globalPlayPause now = app.syncPlay true now := by
      simp [App.globalPlayPause, hany]
    have hmap : (app.syncPlay true now).tracks = app.tracks.map (fun u =>
        match u.filePath with
        | some _ => Track.startFromOffset { u with offset := 0 } 0 now
        | none => u) := by
      simp [App.syncPlay]
    rw [hgp]
    refine ⟨_, by rw [hmap, List.get?_map, hi]; rfl, ?_, ?_⟩
    · intro hfp
      obtain ⟨fp, hfp'⟩ := Option.isSome_iff_exists.mp hfp
      simp [hfp', Track.startFromOffset, Track.streamActive]
    · intro hfp
      simp [hfp]
  · intro hany
    have hgp : app.globalPlayPause now = app.syncPlay false now := by
      simp [App.globalPlayPause, hany]
    have hmap : (app.syncPlay false now).tracks = app.tracks.map (fun u =>
        if u.playing then u.pausePlayback now else u) := by
      simp [App.syncPlay]
    rw [hgp]
    refine ⟨_, by rw [hmap, List.get?_map, hi]; rfl, ?_, ?_⟩
    · intro hp
      cases hpl : t.player <;>
        simp [hp, hpl, Track.pausePlayback, Track.streamActive]
    · intro hp
      simp [hp]

/-- C6: on a track with no file loaded, play (`toggle_playback`) and
seek (`process_seek`, with or without the app-level sync fan-out) are
silent no-ops: they raise nothing (the embeddings are total functions),
show nothing, and leave the entire state unchanged. -/
theorem no_file_operations_noop (app : App) (i : Nat) (t : Track) (now : ℚ)
    (hi : app.tracks.get? i = some t) (hf : t.filePath = none) :
    app.togglePlayback i now = app ∧
    t.processSeek now = t ∧
    app.trackSeekReleased i now = app := by
  refine ⟨?_, ?_, ?_⟩
  · simp only [App.togglePlayback, hi, hf]
  · unfold Track.processSeek
    rw [hf]
  · simp only [App.trackSeekReleased, hi, hf]

/-- Witness for C6 on the concrete app whose track 0 has no file. -/
theorem no_file_operations_noop_witness :
    syncNoFileApp.togglePlayback 0 3 = syncNoFileApp ∧
    emptyTrack.processSeek 3 = emptyTrack := by
  have h := no_file_operations_noop syncNoFileApp 0 emptyTrack 3 rfl rfl
  exact ⟨h.1, h.2.1⟩

/-- C7 counterexample: `create_pedalboard("Reverb", room_size=5.0)`
propagates the out-of-range value 5 (the declared range of `room_size`
is `[0, 1]`) straight into the constructed plugin — `kwargs.get`
performs no clamping and no defaulting of provided values. -/
theorem pedalboard_out_of_range_propagated :
    create_pedalboard "Reverb" [("room_size", 5)] =
      [{ cls := .Reverb,
         params := [("room_size", 5), ("damping", 1/2), ("wet_level", 33/100),
                    ("dry_level", 2/5), ("width", 1)] }] ∧
    (lookupEffect "Reverb").map (fun e => e.params.head?.map ParamConfig.maxVal) =
      some (some 1) ∧
    ¬((5 : ℚ) ≤ 1) := by
  refine ⟨rfl, rfl, by norm_num⟩

/-- C7 (amended): `create_pedalboard` never raises — an unknown effect
name or the `"None"` effect yields the empty (pass-through) board, and
a missing parameter is replaced by its declared default — but a
parameter value that *is* provided is passed through unchanged, with no
clamping or defaulting of out-of-range values. -/
theorem create_pedalboard_spec (name : String) (kwargs : List (String × ℚ)) :
    create_pedalboard "None" kwargs = [] ∧
    (lookupEffect name = none → create_pedalboard name kwargs = []) ∧
    ∀ eff cls, lookupEffect name = some eff → eff.cls = some cls →
      ∃ p, create_pedalboard name kwargs = [p] ∧ p.cls = cls ∧
        ∀ cfg ∈ eff.params,
          (kwargs.find? (fun kv => kv.1 = cfg.name) = none →
            (cfg.name, cfg.default) ∈ p.params) ∧
          ∀ kv, kwargs.find? (fun kv => kv.1 = cfg.name) = some kv →
            (cfg.name, kv.2) ∈ p.params := by
  refine ⟨rfl, ?_, ?_⟩
  · intro h
    unfold create_pedalboard
    rw [h]
  · intro eff cls heff hcls
    refine ⟨⟨cls, eff.params.map fun cfg =>
        (cfg.name,
         match kwargs.find? (fun kv => kv.1 = cfg.name) with
         | some kv => kv.2
         | none => cfg.default)⟩, ?_, rfl, ?_⟩
    · simp only [create_pedalboard, heff, hcls]
    · intro cfg hcfg
      constructor
      · intro hnone
        have hval : (cfg.name, cfg.default) =
            (cfg.name,
             match kwargs.find? (fun kv => kv.1 = cfg.name) with
             | some kv => kv.2
             | none => cfg.default) := by rw [hnone]
        rw [hval]
        exact List.mem_map_of_mem _ hcfg
      · intro kv hkv
        have hval : (cfg.name, kv.2) =
            (cfg.name,
             match kwargs.find? (fun kv => kv.1 = cfg.name) with
             | some kv => kv.2
             | none => cfg.default) := by rw [hkv]
        rw [hval]
        exact List.mem_map_of_mem _ hcfg

/-- Witness for C7: the `"None"` and unknown-name cases produce empty
boards, and a provided `depth` value reaches the Chorus plugin. -/
theorem create_pedalboard_spec_witness :
    create_pedalboard "None" [("depth", 7)] = [] ∧
    create_pedalboard "Flanger" [("depth", 7)] = [] ∧
    ∃ p, create_pedalboard "Chorus" [("depth", 7)] = [p] ∧
      ("depth", (7 : ℚ)) ∈ p.params := by
  obtain ⟨h1, h2, h3⟩ := create_pedalboard_spec "Flanger" [("depth", 7)]
  obtain ⟨hc1, hc2, hc3⟩ := create_pedalboard_spec "Chorus" [("depth", 7)]
  refine ⟨h1, h2 rfl, ?_⟩
  obtain ⟨p, hp, -, hparams⟩ := hc3
    { cls := some .Chorus
      params :=
        [ { name := "rate_hz", minVal := 1/10, maxVal := 5, default := 3/2 }
        , { name := "depth", minVal := 0, maxVal := 1, default := 1/2 } ] }
    .Chorus rfl rfl
  refine ⟨p, hp, ?_⟩
  have hmem := (hparams { name := "depth", minVal := 0, maxVal := 1, default := 1/2 }
    (by simp)).2 ("depth", 7) rfl
  exact hmem

/-- C8 counterexample: a successful `demucs_split` (exit status 0)
returns the stems ordered (bass, drums, other, vocals), not the claimed
(vocals, drums, bass, other); and `spleeter_split` returns all four
expected paths even when none of the output files exist (it only prints
warnings), instead of failing. -/
theorem stem_order_and_missing_counterexample :
    demucs_split "out" "song" 0 "" =
      .ok ["out/song/bass.wav", "out/song/drums.wav", "out/song/other.wav",
           "out/song/vocals.wav"] ∧
    "out/song/bass.wav" ≠ "out/song/vocals.wav" ∧
    spleeter_split "out" "song" [] =
      ["out/song/vocals.wav", "out/song/drums.wav", "out/song/bass.wav",
       "out/song/other.wav"] := by
  refine ⟨rfl, by decide, rfl⟩

/-- C8 (amended): both separators return exactly 4 stem paths on
success, `spleeter_split` in the order (vocals, drums, bass, other) and
`demucs_split` in the order (bass, drums, other, vocals);
`demucs_split` fails with an error message exactly when the subprocess
exit status is nonzero, while `spleeter_split` never fails — its result
is independent of which output files actually exist, so it can return
paths to missing files. -/
theorem stem_split_results (outputDir baseName stderrText : String)
    (existing : List String) (rc : Int) :
    (spleeter_split outputDir baseName existing).length = 4 ∧
    spleeter_split outputDir baseName existing =
      [pathJoin (pathJoin outputDir baseName) "vocals.wav",
       pathJoin (pathJoin outputDir baseName) "drums.wav",
       pathJoin (pathJoin outputDir baseName) "bass.wav",
       pathJoin (pathJoin outputDir baseName) "other.wav"] ∧
    spleeter_split outputDir baseName existing =
      spleeter_split outputDir baseName [] ∧
    (rc = 0 → demucs_split outputDir baseName rc stderrText =
      .ok [pathJoin (pathJoin outputDir baseName) "bass.wav",
           pathJoin (pathJoin outputDir baseName) "drums.wav",
           pathJoin (pathJoin outputDir baseName) "other.wav",
           pathJoin (pathJoin outputDir baseName) "vocals.wav"]) ∧
    (rc ≠ 0 → demucs_split outputDir baseName rc stderrText =
      .error ("Demucs failed:\n" ++ stderrText)) := by
  refine ⟨rfl, rfl, rfl, ?_, ?_⟩
  · intro h
    subst h
    rfl
  · intro h
    unfold demucs_split
    rw [if_pos h]

/-- Witness for C8's amended theorem at exit statuses 0 and 1. -/
theorem stem_split_results_witness :
    demucs_split "o" "s" 0 "" =
      .ok [pathJoin (pathJoin "o" "s") "bass.wav",
           pathJoin (pathJoin "o" "s") "drums.wav",
           pathJoin (pathJoin "o" "s") "other.wav",
           pathJoin (pathJoin "o" "s") "vocals.wav"] ∧
    demucs_split "o" "s" 1 "boom" = .error ("Demucs failed:\n" ++ "boom") :=
  ⟨(stem_split_results "o" "s" "" [] 0).2.2.2.1 rfl,
   (stem_split_results "o" "s" "boom" [] 1).2.2.2.2 (by norm_num)⟩

/-- C9 (spec-modelled Exporter, §4.4): the exported mix is
peak-normalized — after summing, its peak absolute amplitude is at most
1, and it equals exactly 1 whenever the pre-normalization peak exceeded
1 (division is exact over ℚ, so no rounding tolerance is needed). -/
theorem export_peak_normalized (mixed : List ℚ) :
    peakAmplitude (normalizeMix mixed) ≤ 1 ∧
    (1 < peakAmplitude mixed → peakAmplitude (normalizeMix mixed) = 1) := by
  by_cases h : 1 < peakAmplitude mixed
  · have hpos : 0 < peakAmplitude mixed := lt_trans one_pos h
    have hnorm : peakAmplitude (normalizeMix mixed) = 1 := by
      unfold normalizeMix
      rw [if_pos h, peakAmplitude_map_div _ _ hpos, div_self (ne_of_gt hpos)]
    exact ⟨le_of_eq hnorm, fun _ => hnorm⟩
  · have hnorm : normalizeMix mixed = mixed := by
      unfold normalizeMix
      rw [if_neg h]
    rw [hnorm]
    exact ⟨le_of_not_lt h, fun h1 => absurd h1 h⟩

/-- Witness for C9 on a buffer whose pre-normalization peak is 3. -/
theorem export_peak_normalized_witness :
    peakAmplitude (normalizeMix [2, -3]) ≤ 1 ∧
    peakAmplitude (normalizeMix [2, -3]) = 1 := by
  have h := export_peak_normalized [2, -3]
  have hpeak : (1 : ℚ) < peakAmplitude [2, -3] := by
    norm_num [peakAmplitude]
  exact ⟨h.1, h.2 hpeak⟩

/-- C10 counterexample: with sync enabled, pressing the play button of
track 0 — which has no file loaded — does nothing at all: the loaded
track 1 stays stopped at offset 1.5 s instead of being reset to 0 and
started, because `toggle_playback` returns before the sync branch when
`file_path` is unset (main.py lines 127-128). -/
theorem sync_toggle_unloaded_counterexample :
    syncNoFileApp.syncEnabled = true ∧
    syncNoFileApp.togglePlayback 0 0 = syncNoFileApp ∧
    ((syncNoFileApp.tracks.get? 1).map fun t => (t.playing, t.offset)) =
      some (false, 3/2) ∧
    ((3 : ℚ)/2 ≠ 0) := by
  refine ⟨rfl, rfl, rfl, by norm_num⟩

/-- C10 (amended): with sync enabled, pressing the play/pause button of
a track that has a file loaded always issues a group start — every
track with a file is reset to position 0 and starts playing with an
active stream, regardless of any prior playing state (never a group
stop) — while tracks without a file are untouched. -/
theorem sync_toggle_group_start (app : App) (i : Nat) (t : Track) (now : ℚ)
    (hsync : app.syncEnabled = true)
    (hi : app.tracks.get? i = some t) (hf : t.filePath.isSome)
    (j : Nat) (u : Track) (hj : app.tracks.get? j = some u) :
    ∃ u', (app.togglePlayback i now).tracks.get? j = some u' ∧
      (u.filePath.isSome →
        u'.offset = 0 ∧ u'.playing = true ∧ u'.streamActive = true ∧
        u'.player.map Player.sfOffset = some 0) ∧
      (u.filePath = none → u' = u) := by
  obtain ⟨fp, hfp⟩ := Option.isSome_iff_exists.mp hf
  have htog : app.togglePlayback i now = app.syncPlay true now := by
    unfold App.togglePlayback
    rw [hi]
    simp [hfp, hsync]
  have hmap : (app.syncPlay true now).tracks = app.tracks.map (fun v =>
      match v.filePath with
      | some _ => Track.startFromOffset { v with offset := 0 } 0 now
      | none => v) := by
    simp [App.syncPlay]
  rw [htog]
  refine ⟨_, by rw [hmap, List.get?_map, hj]; rfl, ?_, ?_⟩
  · intro hfu
    obtain ⟨fu, hfu'⟩ := Option.isSome_iff_exists.mp hfu
    simp [hfu', Track.startFromOffset, Track.streamActive]
  · intro hfu
    simp [hfu]

/-- Witness for C10: pressing the loaded, already-playing track 0 with
sync on resets the parked track 1 to 0 and starts it. -/
theorem sync_toggle_group_start_witness :
    ∃ u', (originPlayingApp.togglePlayback 0 4).tracks.get? 1 = some u' ∧
      u'.offset = 0 ∧ u'.playing = true ∧ u'.streamActive = true := by
  obtain ⟨u', hget, hsome, -⟩ :=
    sync_toggle_group_start originPlayingApp 0 runningTrack 4 rfl rfl rfl
      1 parkedTrack rfl
  have h := hsome rfl
  exact ⟨u', hget, h.1, h.2.1, h.2.2.1⟩

/-- Witness for C2 at the concrete app with one playing and one parked
track: the global toggle pauses the playing track, retaining its
wall-clock position 5. -/
theorem global_play_pause_group_toggle_witness :
    ∃ t', (mixedStateApp.globalPlayPause 5).tracks.get? 0 = some t' ∧
      t'.playing = false ∧ t'.streamActive = false ∧ t'.offset = 5 := by
  obtain ⟨-, hstop⟩ :=
    global_play_pause_group_toggle mixedStateApp 5 0 runningTrack rfl
  obtain ⟨t', hget, hplay, -⟩ := hstop rfl
  have h := hplay rfl
  refine ⟨t', hget, h.1, h.2.1, ?_⟩
  rw [h.2.2]
  norm_num [runningTrack]
